import Mathlib

/-!
Verification model of the `sol-unified` routing core
(`src/agent/routing/memory_v2.py`, `classifiers.py`, `router.py`,
`intents.py`), shallowly embedded in Lean.

Conventions of the embedding:
* Python floats (confidences, weights, similarity ratios, relevance
  scores) are rationals `ℚ`.
* `datetime` values are integer timestamps (seconds); `datetime.now()`
  is threaded explicitly as a `now : Int` argument.
* The SQLite tables are association lists keyed by the primary key;
  `INSERT OR REPLACE` updates the row in place when the key exists and
  appends otherwise (the primary-key constraint makes ids unique, so
  in-place update is observationally the SQLite behaviour for the
  queries the code issues).
* External library functions that the repository merely calls are
  abstracted as function parameters:
  `sim` stands for `difflib.SequenceMatcher(None, a, b).ratio()`,
  `patMatch p t` for `re.search(p, t, IGNORECASE)` being a match,
  `extract` for the fixed regex slot-extraction table, and
  `llm` for the Inference Provider (the whole
  `LocalLLMClassifier.classify`, network + JSON parsing included, is an
  external call from the ensemble's point of view).
* `hashlib.sha256(s).hexdigest()[:16]` is modelled by an injective
  tagging function `memHash`; the code uses it only as a deterministic
  id for (owner, content).
* Python `list.sort` / `sorted(..., reverse=True)` are stable; the
  embedding uses a stable insertion sort.
-/

namespace Sol

/-! ## Generic list utilities -/

/-- Stable descending insertion of one element: `x` is placed before the
first element whose key is not larger, so earlier list elements stay
first among equal keys, matching Python's stable `sorted(reverse=True)`. -/
def insDescBy {α β : Type} [LinearOrder β] (key : α → β) (x : α) : List α → List α
  | [] => [x]
  | y :: ys => if key y > key x then y :: insDescBy key x ys else x :: y :: ys

/-- Stable descending sort by a key (Python `sorted(l, key, reverse=True)`). -/
def sortDescBy {α β : Type} [LinearOrder β] (key : α → β) : List α → List α
  | [] => []
  | x :: xs => insDescBy key x (sortDescBy key xs)

/-- Stable ascending insertion of one element (for `ORDER BY ... ASC`). -/
def insAscBy {α β : Type} [LinearOrder β] (key : α → β) (x : α) : List α → List α
  | [] => [x]
  | y :: ys => if key y < key x then y :: insAscBy key x ys else x :: y :: ys

/-- Stable ascending sort by a key. -/
def sortAscBy {α β : Type} [LinearOrder β] (key : α → β) : List α → List α
  | [] => []
  | x :: xs => insAscBy key x (sortAscBy key xs)

theorem mem_insDescBy {α β : Type} [LinearOrder β] (key : α → β) (x a : α) :
    ∀ l : List α, a ∈ insDescBy key x l ↔ a = x ∨ a ∈ l := by
  intro l
  induction l with
  | nil => simp [insDescBy]
  | cons y ys ih =>
      by_cases h : key y > key x
      · simp only [insDescBy, if_pos h, List.mem_cons, ih]
        tauto
      · simp only [insDescBy, if_neg h, List.mem_cons]

theorem mem_sortDescBy {α β : Type} [LinearOrder β] (key : α → β) (a : α) :
    ∀ l : List α, a ∈ sortDescBy key l ↔ a ∈ l := by
  intro l
  induction l with
  | nil => simp [sortDescBy]
  | cons x xs ih => simp [sortDescBy, mem_insDescBy, ih]

theorem mem_insAscBy {α β : Type} [LinearOrder β] (key : α → β) (x a : α) :
    ∀ l : List α, a ∈ insAscBy key x l ↔ a = x ∨ a ∈ l := by
  intro l
  induction l with
  | nil => simp [insAscBy]
  | cons y ys ih =>
      by_cases h : key y < key x
      · simp only [insAscBy, if_pos h, List.mem_cons, ih]
        tauto
      · simp only [insAscBy, if_neg h, List.mem_cons]

theorem mem_sortAscBy {α β : Type} [LinearOrder β] (key : α → β) (a : α) :
    ∀ l : List α, a ∈ sortAscBy key l ↔ a ∈ l := by
  intro l
  induction l with
  | nil => simp [sortAscBy]
  | cons x xs ih => simp [sortAscBy, mem_insAscBy, ih]

/-! ## Python-dict utilities (insertion-ordered association lists) -/

/-- Python `d[k] = v`: overwrite in place if the key exists, else append. -/
def dictSet {β : Type} (d : List (String × β)) (k : String) (v : β) :
    List (String × β) :=
  if d.any (fun p => p.1 = k) then
    d.map (fun p => if p.1 = k then (k, v) else p)
  else d ++ [(k, v)]

/-- Python `d.get(k, dflt)`. -/
def dictGet {β : Type} (d : List (String × β)) (k : String) (dflt : β) : β :=
  match d.find? (fun p => p.1 = k) with
  | some p => p.2
  | none => dflt

/-- Python `{**a, **b}`: keys of `a` in order (values overridden by `b`
where present), then the keys of `b` not in `a`, in order. -/
def pyDictMerge {β : Type} (a b : List (String × β)) : List (String × β) :=
  a.map (fun p =>
    match b.find? (fun q => q.1 = p.1) with
    | some q => (p.1, q.2)
    | none => p) ++
  b.filter (fun q => !(a.any (fun p => p.1 = q.1)))

/-- Python `list(set(l))` for string lists, modelled deterministically as
first-occurrence deduplication (the code uses it only as a set of ids). -/
def setList : List String → List String
  | [] => []
  | x :: xs => if xs.contains x then setList xs else x :: setList xs

/-! ## String utilities -/

/-- Python `str.lower()` (ASCII contents in this code base). -/
def lowerStr (s : String) : String := String.mk (s.toList.map Char.toLower)

/-- Python `needle in hay` substring test. -/
def containsStr (hay needle : String) : Bool :=
  (hay.toList.tails).any (fun t => needle.toList.isPrefixOf t)

/-- Python `hay.startswith(needle)`. -/
def startsWithStr (hay needle : String) : Bool :=
  needle.toList.isPrefixOf hay.toList

/-- Python `str.strip()` (whitespace trim; ASCII whitespace, which is
what the keyword/intent texts of this code base contain). -/
def stripStr (s : String) : String :=
  String.mk (((s.toList.dropWhile Char.isWhitespace).reverse.dropWhile
    Char.isWhitespace).reverse)

/-- Models `hashlib.sha256(s).hexdigest()[:16]`: a deterministic id
derived from its input; modelled as an injective tag. -/
def memHash (s : String) : String := "sha256:" ++ s

/-! ## Memory data model (`memory_v2.py`) -/

/-- `MemoryType` enum. -/
inductive MemoryType
  | session
  | user
  | learned
  | summary
deriving DecidableEq, Repr

/-- A metadata value: Python `dict` values here are strings (category,
source, session id), numbers (similarity, message_count,
consolidated_from) or id lists (merged_from); `None` also occurs. -/
inductive MetaVal
  | str (v : String)
  | num (v : ℚ)
  | ids (v : List String)
  | nullv
deriving DecidableEq, Repr

/-- `MemoryEntry` dataclass (defaults as in the source; the
`datetime.now()` default factories are supplied at construction sites). -/
structure MemoryEntry where
  id : String
  memory_type : MemoryType
  content : String
  metadata : List (String × MetaVal) := []
  created_at : Int := 0
  updated_at : Int := 0
  session_id : Option String := none
  user_id : Option String := none
  confidence : ℚ := 1
  approved : Bool := true
  access_count : Nat := 0
  last_accessed : Option Int := none
  source_ids : List String := []
  is_archived : Bool := false
  version : Nat := 1
deriving DecidableEq, Repr

/-- `MemoryEntry.relevance_score`: 0.3·recency (linear decay to zero over
7 days of age, in hours) + 0.2·frequency (access count capped at 10)
+ 0.2·confidence + 0.3·query similarity (0.15 flat when no query). -/
def MemoryEntry.relevance_score (sim : String → String → ℚ) (now : Int)
    (e : MemoryEntry) (query : String) : ℚ :=
  let age_hours : ℚ := ((now - e.updated_at : Int) : ℚ) / 3600
  let recency_score := max 0 (1 - age_hours / (7 * 24))
  let freq_score := min 1 ((e.access_count : ℚ) / 10)
  let base := recency_score * (3/10) + freq_score * (2/10) + e.confidence * (2/10)
  if query ≠ "" then
    base + sim (lowerStr query) (lowerStr e.content) * (3/10)
  else
    base + 15/100

/-- `Message` dataclass (the unused per-message metadata dict is dropped). -/
structure Message where
  role : String
  content : String
  timestamp : Int := 0
deriving DecidableEq, Repr

/-- A row of the `messages_v2` table. -/
structure MsgRow where
  msg_id : Nat
  session_id : String
  role : String
  content : String
  timestamp : Int
  is_summarized : Bool := false
deriving DecidableEq, Repr

/-- A row of the durable `pending_learnings` table. -/
structure PendingRow where
  id : String
  content : String
  metadata : List (String × MetaVal)
  created_at : Int
  confidence : ℚ
  source : MetaVal
deriving DecidableEq, Repr

/-- The state of a `MemoryStoreV2` database: the three tables the policy
layer reads and writes (`memory_summaries` is never read back). -/
structure StoreV2 where
  entries : List MemoryEntry := []
  messages : List MsgRow := []
  next_msg_id : Nat := 1
  pending : List PendingRow := []
deriving DecidableEq, Repr

/-! ## Store operations (`MemoryStoreV2`) -/

namespace MemoryStoreV2

/-- Primary-key lookup in the entries table. -/
def lookupEntry (entries : List MemoryEntry) (id : String) : Option MemoryEntry :=
  entries.find? (fun e => e.id = id)

/-- `MemoryStoreV2.save`: on an existing id the version is bumped from
the stored row and `updated_at` reset, then `INSERT OR REPLACE`. -/
def save (now : Int) (entries : List MemoryEntry) (entry : MemoryEntry) :
    List MemoryEntry :=
  (lookupEntry entries entry.id).elim (entries ++ [entry]) (fun existing =>
    entries.map (fun r =>
      if r.id = entry.id then
        { entry with version := existing.version + 1, updated_at := now }
      else r))

/-- `MemoryStoreV2.get`: returns the stored row as fetched, and (when
`update_access` is set) persists an access-count increment and
`last_accessed` timestamp for it. -/
def get (now : Int) (entries : List MemoryEntry) (id : String)
    (update_access : Bool := true) : Option MemoryEntry × List MemoryEntry :=
  (lookupEntry entries id).elim (none, entries) (fun row =>
    if update_access then
      (some row,
       entries.map (fun r =>
         if r.id = id then
           { r with access_count := r.access_count + 1, last_accessed := some now }
         else r))
    else (some row, entries))

/-- Whether an entry passes `search_relevant`'s SQL filter. -/
def searchFilter (memory_type : Option MemoryType) (user_id : Option String)
    (e : MemoryEntry) : Bool :=
  !e.is_archived && e.approved &&
  (match memory_type with
   | some t => decide (e.memory_type = t)
   | none => true) &&
  (match user_id with
   | some u => decide (e.user_id = some u)
   | none => true)

/-- `MemoryStoreV2.search_relevant`: active approved candidates, newest
`3·limit` by `updated_at`, re-ranked by relevance, top `limit`. -/
def search_relevant (sim : String → String → ℚ) (now : Int)
    (entries : List MemoryEntry) (query : String)
    (memory_type : Option MemoryType) (user_id : Option String)
    (limit : Nat) : List MemoryEntry :=
  let cands := entries.filter (searchFilter memory_type user_id)
  let recent := (sortDescBy (fun e => e.updated_at) cands).take (limit * 3)
  (sortDescBy (fun e => e.relevance_score sim now query) recent).take limit

/-- `MemoryStoreV2.find_similar`: all active approved entries whose
content is at least `threshold`-similar to `content`; each hit records
its similarity in its metadata, and hits are sorted by similarity. -/
def find_similar (sim : String → String → ℚ) (entries : List MemoryEntry)
    (content : String) (threshold : ℚ) : List MemoryEntry :=
  let content_lower := lowerStr content
  let similar := (entries.filter (fun e => e.is_archived = false ∧ e.approved = true)).filterMap
    (fun e =>
      let similarity := sim content_lower (lowerStr e.content)
      if similarity ≥ threshold then
        some { e with metadata := dictSet e.metadata "similarity" (.num similarity) }
      else none)
  sortDescBy (fun e => match dictGet e.metadata "similarity" (.num 0) with
    | .num q => q
    | _ => 0) similar

/-- `MemoryStoreV2.archive_old`: flips `is_archived` on unarchived rows
last updated before the cutoff (optionally restricted by type); returns
the new table and the number of rows archived. -/
def archive_old (now : Int) (older_than_days : Int)
    (memory_type : Option MemoryType) (entries : List MemoryEntry) :
    List MemoryEntry × Nat :=
  let cutoff := now - older_than_days * 86400
  let hit : MemoryEntry → Bool := fun e =>
    decide (e.updated_at < cutoff) && !e.is_archived &&
    (match memory_type with
     | some t => decide (e.memory_type = t)
     | none => true)
  (entries.map (fun e => if hit e then { e with is_archived := true } else e),
   (entries.filter hit).length)

/-- `MemoryStoreV2.save_message`: append with the autoincremented id. -/
def save_message (st : StoreV2) (session_id : String) (m : Message) : StoreV2 :=
  { st with
    messages := st.messages ++
      [{ msg_id := st.next_msg_id, session_id := session_id, role := m.role,
         content := m.content, timestamp := m.timestamp }],
    next_msg_id := st.next_msg_id + 1 }

/-- `MemoryStoreV2.get_messages`: a session's rows (optionally only the
unsummarized ones), by ascending timestamp, first `limit`, projected to
`Message` values (ids and summarized flags are not returned). -/
def get_messages (st : StoreV2) (session_id : String) (limit : Nat)
    (unsummarized_only : Bool := false) : List Message :=
  let rows := st.messages.filter (fun r =>
    r.session_id = session_id ∧ (unsummarized_only → r.is_summarized = false))
  ((sortAscBy (fun r => r.timestamp) rows).take limit).map
    (fun r => { role := r.role, content := r.content, timestamp := r.timestamp })

/-- `MemoryStoreV2.mark_messages_summarized`. -/
def mark_messages_summarized (st : StoreV2) (session_id : String)
    (up_to_id : Nat) : StoreV2 :=
  { st with
    messages := st.messages.map (fun r =>
      if r.session_id = session_id ∧ r.msg_id ≤ up_to_id then
        { r with is_summarized := true }
      else r) }

/-- `MemoryStoreV2.save_pending_learning`: `INSERT OR REPLACE` into the
durable pending table; the `source` column is `metadata.get("source")`. -/
def save_pending_learning (st : StoreV2) (entry : MemoryEntry) : StoreV2 :=
  let row : PendingRow :=
    { id := entry.id, content := entry.content, metadata := entry.metadata,
      created_at := entry.created_at, confidence := entry.confidence,
      source := dictGet entry.metadata "source" .nullv }
  { st with
    pending :=
      if st.pending.any (fun p => p.id = entry.id) then
        st.pending.map (fun p => if p.id = entry.id then row else p)
      else st.pending ++ [row] }

/-- `MemoryStoreV2.get_pending_learnings`: rows by descending creation
time, reconstructed as unapproved LEARNED entries (dataclass defaults
fill the remaining fields; the `updated_at` default factory runs at
reconstruction time). -/
def get_pending_learnings (now : Int) (st : StoreV2) : List MemoryEntry :=
  (sortDescBy (fun p => p.created_at) st.pending).map (fun p =>
    { id := p.id, memory_type := .learned, content := p.content,
      metadata := p.metadata, created_at := p.created_at, updated_at := now,
      confidence := p.confidence, approved := false })

/-- `MemoryStoreV2.remove_pending_learning`. -/
def remove_pending_learning (st : StoreV2) (id : String) : Bool × StoreV2 :=
  (st.pending.any (fun p => p.id = id),
   { st with pending := st.pending.filter (fun p => p.id ≠ id) })

end MemoryStoreV2

/-! ## Summarizer (`MemorySummarizer`) -/

namespace MemorySummarizer

/-- The stop-word set of `_heuristic_summarize`. -/
def stop_words : List String :=
  ["the", "a", "an", "is", "are", "was", "were", "i", "you", "it",
   "to", "for", "of", "in", "on", "and", "or", "but", "with", "this",
   "that", "can", "do", "what", "how", "please", "help", "me", "my"]

/-- A `\w` character (`re.findall(r'\b\w+\b', ...)`, ASCII contents). -/
def isWordChar (c : Char) : Bool := c.isAlphanum || c = '_'

/-- Splits a string into its maximal `\w` runs. -/
def wordsAux : List Char → List Char → List String
  | [], acc => if acc.isEmpty then [] else [String.mk acc.reverse]
  | c :: cs, acc =>
      if isWordChar c then wordsAux cs (c :: acc)
      else if acc.isEmpty then wordsAux cs []
      else String.mk acc.reverse :: wordsAux cs []

/-- `re.findall(r'\b\w+\b', s)`. -/
def findWords (s : String) : List String := wordsAux s.toList []

/-- One step of the word-frequency dict. -/
def bumpFreq (freq : List (String × Nat)) (w : String) : List (String × Nat) :=
  if freq.any (fun p => p.1 = w) then
    freq.map (fun p => if p.1 = w then (p.1, p.2 + 1) else p)
  else freq ++ [(w, 1)]

/-- `MemorySummarizer._heuristic_summarize`: keyword-frequency summary of
the user messages. -/
def heuristic_summarize (messages : List Message) : String :=
  if messages.isEmpty then ""
  else
    let user_messages := (messages.filter (fun m => m.role = "user")).map (fun m => m.content)
    let all_text := lowerStr (String.intercalate " " user_messages)
    let word_freq := (findWords all_text).foldl (fun freq w =>
      if !stop_words.contains w && w.length > 2 then bumpFreq freq w else freq) []
    let topics := ((sortDescBy (fun p => p.2) word_freq).take 5).map (fun p => p.1)
    if topics ≠ [] then
      "Discussed: " ++ String.intercalate ", " topics ++ ". " ++
        toString messages.length ++ " messages exchanged."
    else "Session with " ++ toString messages.length ++ " messages."

/-- The LLM prompt of `summarize_session`. -/
def session_prompt (conversation : String) : String :=
  "Summarize this conversation in 2-3 sentences, focusing on:\n" ++
  "- Key topics discussed\n- Decisions made\n- Action items or follow-ups\n\n" ++
  "Conversation:\n" ++ conversation ++ "\n\nSummary:"

/-- `MemorySummarizer.summarize_session`: LLM summary when a summarizer
function was injected, keyword heuristic otherwise. -/
def summarize_session (llm : Option (String → String)) (messages : List Message) :
    String :=
  if messages.isEmpty then ""
  else
    let conversation :=
      String.intercalate "\n" (messages.map (fun m => m.role ++ ": " ++ m.content))
    match llm with
    | some f => f (session_prompt conversation)
    | none => heuristic_summarize messages

/-- `metadata.get("category", "general")` (categories are stored as
strings by `remember_user_fact`). -/
def categoryOf (e : MemoryEntry) : String :=
  match dictGet e.metadata "category" (.str "general") with
  | .str s => s
  | _ => "general"

/-- Grouping of facts by category, in first-occurrence order, as a
Python dict of lists. -/
def groupByCategory (facts : List MemoryEntry) : List (String × List MemoryEntry) :=
  facts.foldl (fun acc f =>
    let cat := categoryOf f
    if acc.any (fun p => p.1 = cat) then
      acc.map (fun p => if p.1 = cat then (p.1, p.2 ++ [f]) else p)
    else acc ++ [(cat, [f])]) []

/-- The LLM prompt of `summarize_user_facts`. -/
def facts_prompt (facts_text : String) : String :=
  "Consolidate these related facts about the user into 1-2 key points:\n\n" ++
  facts_text ++ "\n\nConsolidated facts (one per line):"

/-- `MemorySummarizer.summarize_user_facts`: with more than 5 facts,
categories holding more than 2 entries are consolidated — LLM summary
entry when available, otherwise the 2 highest-confidence facts. -/
def summarize_user_facts (llm : Option (String → String)) (now : Int)
    (facts : List MemoryEntry) : List MemoryEntry :=
  if facts.length ≤ 5 then facts
  else
    (groupByCategory facts).foldl (fun consolidated p =>
      let cat_facts := p.2
      if cat_facts.length ≤ 2 then consolidated ++ cat_facts
      else
        match llm with
        | some f =>
            let facts_text :=
              String.intercalate "\n" (cat_facts.map (fun g => "- " ++ g.content))
            let summary := f (facts_prompt facts_text)
            consolidated ++
              [{ id := memHash summary, memory_type := .user, content := summary,
                 metadata := [("category", MetaVal.str p.1),
                              ("consolidated_from", .num cat_facts.length)],
                 created_at := now, updated_at := now,
                 source_ids := cat_facts.map (fun g => g.id),
                 confidence := (cat_facts.map (fun g => g.confidence)).sum / cat_facts.length }]
        | none => consolidated ++ (sortDescBy (fun g => g.confidence) cat_facts).take 2) []

end MemorySummarizer

/-! ## Deduplicator (`MemoryDeduplicator`) -/

namespace MemoryDeduplicator

/-- `MemoryDeduplicator.find_duplicates`: all ordered pairs `(i, j)` with
`i < j` whose contents are at least `threshold`-similar. -/
def find_duplicates (sim : String → String → ℚ) (threshold : ℚ) :
    List MemoryEntry → List (MemoryEntry × MemoryEntry × ℚ)
  | [] => []
  | m1 :: rest =>
      rest.filterMap (fun m2 =>
        let s := sim (lowerStr m1.content) (lowerStr m2.content)
        if s ≥ threshold then some (m1, m2, s) else none) ++
      find_duplicates sim threshold rest

/-- `MemoryDeduplicator.merge_memories`: the higher-confidence (on ties
the more recently updated) entry is the base; the merge keeps the base's
id and content, unions metadata, source ids and provenance, sums access
counts and bumps the base's version. The remaining fields come from
`MemoryEntry`'s dataclass defaults (notably `approved=True`,
`is_archived=False`). -/
def merge_memories (now : Int) (m1 m2 : MemoryEntry) : MemoryEntry :=
  let bo : MemoryEntry × MemoryEntry :=
    if m1.confidence > m2.confidence then (m1, m2)
    else if m2.confidence > m1.confidence then (m2, m1)
    else if m1.updated_at > m2.updated_at then (m1, m2)
    else (m2, m1)
  let base := bo.1
  let other := bo.2
  let merged_metadata :=
    dictSet (pyDictMerge other.metadata base.metadata) "merged_from"
      (.ids [base.id, other.id])
  { id := base.id,
    memory_type := base.memory_type,
    content := base.content,
    metadata := merged_metadata,
    created_at := min base.created_at other.created_at,
    updated_at := now,
    session_id := base.session_id,
    user_id := match base.user_id with
      | some u => if u = "" then other.user_id else some u
      | none => other.user_id,
    confidence := max base.confidence other.confidence,
    access_count := base.access_count + other.access_count,
    source_ids := setList (base.source_ids ++ other.source_ids ++ [other.id]),
    version := base.version + 1 }

end MemoryDeduplicator

/-! ## Policy layer (`MemoryManagerV2`)

The manager's configuration (`llm_func`, `max_session_messages`,
`max_user_memories`, `auto_compact`) and the abstracted externals
(`sim`) are passed explicitly to each operation; `now` is the wall
clock at the call. -/

namespace MemoryManagerV2

/-- `MemoryManagerV2._maybe_summarize_session`: fetches up to
`max_session_messages + 10` of the session's messages (all of them,
summarized or not); when that exceeds `max_session_messages`, all but
the last 10 are summarized and the summary saved as a SUMMARY entry.
No message is marked as summarized. -/
def maybe_summarize_session (llm : Option (String → String))
    (max_session_messages : Nat) (now : Int) (st : StoreV2)
    (session_id : String) : StoreV2 :=
  let messages := MemoryStoreV2.get_messages st session_id (max_session_messages + 10)
  if messages.length > max_session_messages then
    let to_summarize := messages.take (messages.length - 10)
    let summary := MemorySummarizer.summarize_session llm to_summarize
    if summary ≠ "" then
      let entry : MemoryEntry :=
        { id := memHash (session_id ++ ":" ++ toString now),
          memory_type := .summary,
          content := summary,
          metadata := [("session_id", .str session_id),
                       ("message_count", .num to_summarize.length)],
          created_at := now, updated_at := now,
          session_id := some session_id }
      { st with entries := MemoryStoreV2.save now st.entries entry }
    else st
  else st

/-- `MemoryManagerV2.add_message`: appends the message and, with
`auto_compact` on, runs the summarization check. -/
def add_message (llm : Option (String → String)) (max_session_messages : Nat)
    (auto_compact : Bool) (now : Int) (st : StoreV2)
    (session_id role content : String) : StoreV2 :=
  let st1 := MemoryStoreV2.save_message st session_id
    { role := role, content := content, timestamp := now }
  if auto_compact then
    maybe_summarize_session llm max_session_messages now st1 session_id
  else st1

/-- `MemoryManagerV2._maybe_compact_user_memories`: when the user's
active USER entries exceed `max_user_memories`, consolidate them,
archive the entries that did not survive consolidation and save the
consolidated ones. -/
def maybe_compact_user_memories (sim : String → String → ℚ)
    (llm : Option (String → String)) (max_user_memories : Nat) (now : Int)
    (st : StoreV2) (user_id : String) : StoreV2 :=
  let memories := MemoryStoreV2.search_relevant sim now st.entries ""
    (some .user) (some user_id) (max_user_memories + 20)
  if memories.length > max_user_memories then
    let consolidated := MemorySummarizer.summarize_user_facts llm now memories
    let keptIds := consolidated.map (fun c => c.id)
    let entries1 := memories.foldl (fun acc m =>
      if keptIds.contains m.id then acc
      else MemoryStoreV2.save now acc { m with is_archived := true }) st.entries
    let entries2 := consolidated.foldl (fun acc c => MemoryStoreV2.save now acc c) entries1
    { st with entries := entries2 }
  else st

/-- `MemoryManagerV2.remember_user_fact`: facts at least 0.75-similar to
an existing active entry of the same user update that entry (confidence
becomes the max, access and update metadata are bumped) instead of
creating a duplicate; otherwise a new USER entry keyed by
`hash(user:fact)` is inserted and, with `auto_compact` on, user-memory
consolidation may run. -/
def remember_user_fact (sim : String → String → ℚ)
    (llm : Option (String → String)) (max_user_memories : Nat)
    (auto_compact : Bool) (now : Int) (st : StoreV2)
    (user_id fact category : String) (confidence : ℚ) :
    MemoryEntry × StoreV2 :=
  let similar := MemoryStoreV2.find_similar sim st.entries fact (3/4)
  let user_similar := similar.filter (fun s => s.user_id = some user_id)
  match user_similar with
  | existing :: _ =>
      let updated := { existing with
        confidence := max existing.confidence confidence,
        access_count := existing.access_count + 1,
        updated_at := now }
      (updated, { st with entries := MemoryStoreV2.save now st.entries updated })
  | [] =>
      let entry : MemoryEntry :=
        { id := memHash (user_id ++ ":" ++ fact),
          memory_type := .user,
          content := fact,
          metadata := [("category", .str category)],
          created_at := now, updated_at := now,
          user_id := some user_id,
          confidence := confidence }
      let st1 := { st with entries := MemoryStoreV2.save now st.entries entry }
      (entry,
       if auto_compact then
         maybe_compact_user_memories sim llm max_user_memories now st1 user_id
       else st1)

/-- `MemoryManagerV2.propose_learning`: builds an unapproved LEARNED
entry and persists it to the durable pending table only. -/
def propose_learning (now : Int) (st : StoreV2) (insight category : String)
    (source : Option String) (confidence : ℚ) : MemoryEntry × StoreV2 :=
  let entry : MemoryEntry :=
    { id := memHash insight,
      memory_type := .learned,
      content := insight,
      metadata := [("category", .str category),
                   ("source", match source with
                     | some s => .str s
                     | none => .nullv)],
      created_at := now, updated_at := now,
      confidence := confidence,
      approved := false }
  (entry, MemoryStoreV2.save_pending_learning st entry)

/-- `MemoryManagerV2.approve_learning`: moves a pending learning into
the approved entries table and removes it from the pending table. -/
def approve_learning (now : Int) (st : StoreV2) (id : String) : Bool × StoreV2 :=
  match (MemoryStoreV2.get_pending_learnings now st).find? (fun e => e.id = id) with
  | some entry =>
      let st1 := { st with
        entries := MemoryStoreV2.save now st.entries { entry with approved := true } }
      (true, (MemoryStoreV2.remove_pending_learning st1 id).2)
  | none => (false, st)

/-- `MemoryManagerV2.reject_learning`. -/
def reject_learning (st : StoreV2) (id : String) : Bool × StoreV2 :=
  MemoryStoreV2.remove_pending_learning st id

/-- `MemoryManagerV2.recall`: relevance-ranked retrieval. The access
counter and timestamp are incremented on the returned entry values
only: the method performs no store write (`search_relevant` only
reads), so the stored rows are untouched. -/
def recall' (sim : String → String → ℚ) (now : Int) (st : StoreV2)
    (query : String) (user_id : Option String)
    (memory_type : Option MemoryType) (limit : Nat) : List MemoryEntry :=
  let entries := MemoryStoreV2.search_relevant sim now st.entries query
    memory_type user_id limit
  entries.map (fun e =>
    { e with access_count := e.access_count + 1, last_accessed := some now })

/-- `MemoryManagerV2.get_session_context`: the session's messages
(default limit 20). -/
def get_session_context (st : StoreV2) (session_id : String)
    (limit : Nat := 20) : List Message :=
  MemoryStoreV2.get_messages st session_id limit

/-- The context object built by `build_context`: recent conversation,
contents of the relevance-ranked USER entries (present only when a user
id was given) and contents of the relevance-ranked LEARNED entries. -/
structure BuiltContext where
  conversation_history : List Message
  user_facts : Option (List String)
  insights : List String
deriving DecidableEq, Repr

/-- The LEARNED entries `build_context` draws its `insights` from:
`recall(query, memory_type=LEARNED, limit=5)`. -/
def insightEntries (sim : String → String → ℚ) (now : Int) (st : StoreV2)
    (query : String) : List MemoryEntry :=
  recall' sim now st query none (some .learned) 5

/-- The USER entries `build_context` draws `user_facts` from:
`recall(query, user_id, memory_type=USER, limit=10)`. -/
def userFactEntries (sim : String → String → ℚ) (now : Int) (st : StoreV2)
    (query : String) (user_id : String) : List MemoryEntry :=
  recall' sim now st query (some user_id) (some .user) 10

/-- `MemoryManagerV2.build_context`. -/
def build_context (sim : String → String → ℚ) (now : Int) (st : StoreV2)
    (session_id : String) (user_id : Option String) (query : String) :
    BuiltContext :=
  { conversation_history := get_session_context st session_id,
    user_facts := user_id.map (fun u =>
      (userFactEntries sim now st query u).map (fun m => m.content)),
    insights := (insightEntries sim now st query).map (fun m => m.content) }

/-- `MemoryManagerV2.compact`: archives entries older than 30 days, then
(when a user is given) merges that user's near-duplicate pairs. For
each pair the merge is saved, after which the pair's second entry is
saved back archived. Returns the store plus the
`memories_archived` / `duplicates_merged` stats. -/
def compact (sim : String → String → ℚ) (now : Int) (st : StoreV2)
    (user_id : Option String) : StoreV2 × Nat × Nat :=
  let ar := MemoryStoreV2.archive_old now 30 none st.entries
  match user_id with
  | none => ({ st with entries := ar.1 }, ar.2, 0)
  | some u =>
      let user_memories := MemoryStoreV2.search_relevant sim now ar.1 ""
        (some .user) (some u) 1000
      let duplicates := MemoryDeduplicator.find_duplicates sim (3/4) user_memories
      let entries2 := duplicates.foldl (fun acc d =>
        let merged := MemoryDeduplicator.merge_memories now d.1 d.2.1
        let acc1 := MemoryStoreV2.save now acc merged
        MemoryStoreV2.save now acc1 { d.2.1 with is_archived := true }) ar.1
      ({ st with entries := entries2 }, ar.2, duplicates.length)

end MemoryManagerV2

/-! ## Store lemmas -/

namespace MemoryStoreV2

theorem length_save (now : Int) (entries : List MemoryEntry) (e : MemoryEntry) :
    entries.length ≤ (save now entries e).length := by
  unfold save
  cases lookupEntry entries e.id with
  | none => simp
  | some existing => simp

theorem lookupEntry_isSome_iff (entries : List MemoryEntry) (id : String) :
    (lookupEntry entries id).isSome ↔ ∃ x ∈ entries, x.id = id := by
  unfold lookupEntry
  rw [List.find?_isSome]
  simp

theorem presence_map (entries : List MemoryEntry) (f : MemoryEntry → MemoryEntry)
    (hf : ∀ x, (f x).id = x.id) (id : String)
    (h : (lookupEntry entries id).isSome) :
    (lookupEntry (entries.map f) id).isSome := by
  rw [lookupEntry_isSome_iff] at h ⊢
  obtain ⟨x, hx, hxid⟩ := h
  exact ⟨f x, List.mem_map_of_mem f hx, by rw [hf x, hxid]⟩

theorem presence_save (now : Int) (entries : List MemoryEntry) (e : MemoryEntry)
    (id : String) (h : (lookupEntry entries id).isSome) :
    (lookupEntry (save now entries e) id).isSome := by
  unfold save
  cases hl : lookupEntry entries e.id with
  | none =>
      rw [lookupEntry_isSome_iff] at h ⊢
      obtain ⟨x, hx, hxid⟩ := h
      exact ⟨x, List.mem_append_left _ hx, hxid⟩
  | some existing =>
      apply presence_map entries _ _ id h
      intro x
      by_cases hc : x.id = e.id
      · simp [hc]
      · simp [hc]

theorem presence_archive_old (now : Int) (days : Int) (mt : Option MemoryType)
    (entries : List MemoryEntry) (id : String)
    (h : (lookupEntry entries id).isSome) :
    (lookupEntry (archive_old now days mt entries).1 id).isSome := by
  unfold archive_old
  apply presence_map entries _ _ id h
  intro x
  dsimp only
  split <;> rfl

theorem get_isSome_of_lookup (now : Int) (entries : List MemoryEntry)
    (id : String) (b : Bool) (h : (lookupEntry entries id).isSome) :
    ((get now entries id b).1).isSome := by
  unfold get
  cases hl : lookupEntry entries id with
  | none => rw [hl] at h; simp at h
  | some row => cases b <;> simp

end MemoryStoreV2

/-- The entries table resulting from the deduplication fold of
`compact` keeps every id present and never shrinks. -/
theorem compact_fold_presence_length (now : Int)
    (dups : List (MemoryEntry × MemoryEntry × ℚ)) (acc : List MemoryEntry) :
    (∀ id, (MemoryStoreV2.lookupEntry acc id).isSome →
      (MemoryStoreV2.lookupEntry
        (dups.foldl (fun acc d =>
          let merged := MemoryDeduplicator.merge_memories now d.1 d.2.1
          let acc1 := MemoryStoreV2.save now acc merged
          MemoryStoreV2.save now acc1 { d.2.1 with is_archived := true }) acc)
        id).isSome) ∧
    acc.length ≤
      (dups.foldl (fun acc d =>
        let merged := MemoryDeduplicator.merge_memories now d.1 d.2.1
        let acc1 := MemoryStoreV2.save now acc merged
        MemoryStoreV2.save now acc1 { d.2.1 with is_archived := true }) acc).length := by
  induction dups generalizing acc with
  | nil => exact ⟨fun id h => h, le_refl _⟩
  | cons d rest ih =>
      simp only [List.foldl_cons]
      constructor
      · intro id h
        exact (ih _).1 id
          (MemoryStoreV2.presence_save now _ _ id
            (MemoryStoreV2.presence_save now _ _ id h))
      · calc acc.length
            ≤ (MemoryStoreV2.save now acc
                (MemoryDeduplicator.merge_memories now d.1 d.2.1)).length :=
              MemoryStoreV2.length_save now _ _
          _ ≤ (MemoryStoreV2.save now
                (MemoryStoreV2.save now acc
                  (MemoryDeduplicator.merge_memories now d.1 d.2.1))
                { d.2.1 with is_archived := true }).length :=
              MemoryStoreV2.length_save now _ _
          _ ≤ _ := (ih _).2

/-- C3. `MemoryManagerV2.compact()` never permanently deletes memory
entries: the total number of rows in the entries table (active plus
archived) is non-decreasing across a call, every id present before the
call is still present after it, and every entry of the resulting table
— in particular every entry the call archived — is retrievable by id
through the store's `get`. -/
theorem C3_compact_never_deletes (sim : String → String → ℚ) (now : Int)
    (st : StoreV2) (user_id : Option String) :
    st.entries.length ≤ (MemoryManagerV2.compact sim now st user_id).1.entries.length ∧
    (∀ id, (MemoryStoreV2.lookupEntry st.entries id).isSome →
      ∀ now2 b, ((MemoryStoreV2.get now2
        (MemoryManagerV2.compact sim now st user_id).1.entries id b).1).isSome) ∧
    (∀ e, e ∈ (MemoryManagerV2.compact sim now st user_id).1.entries →
      e.is_archived = true →
      ∀ now2 b, ((MemoryStoreV2.get now2
        (MemoryManagerV2.compact sim now st user_id).1.entries e.id b).1).isSome) := by
  have harchlen : ∀ (e : List MemoryEntry),
      (MemoryStoreV2.archive_old now 30 none e).1.length = e.length := by
    intro e
    unfold MemoryStoreV2.archive_old
    simp
  have hmain : st.entries.length ≤
      (MemoryManagerV2.compact sim now st user_id).1.entries.length ∧
      (∀ id, (MemoryStoreV2.lookupEntry st.entries id).isSome →
        (MemoryStoreV2.lookupEntry
          (MemoryManagerV2.compact sim now st user_id).1.entries id).isSome) := by
    unfold MemoryManagerV2.compact
    cases user_id with
    | none =>
        refine ⟨by simpa using (harchlen st.entries).ge, fun id h => ?_⟩
        exact MemoryStoreV2.presence_archive_old now 30 none st.entries id h
    | some u =>
        simp only
        constructor
        · calc st.entries.length
              = (MemoryStoreV2.archive_old now 30 none st.entries).1.length :=
                (harchlen st.entries).symm
            _ ≤ _ := (compact_fold_presence_length now _ _).2
        · intro id h
          exact (compact_fold_presence_length now _ _).1 id
            (MemoryStoreV2.presence_archive_old now 30 none st.entries id h)
  refine ⟨hmain.1, fun id h now2 b => ?_, fun e he _ now2 b => ?_⟩
  · exact MemoryStoreV2.get_isSome_of_lookup now2 _ id b (hmain.2 id h)
  · apply MemoryStoreV2.get_isSome_of_lookup
    rw [MemoryStoreV2.lookupEntry_isSome_iff]
    exact ⟨e, he, rfl⟩

/-- The store used for the C1 failing input: one active USER entry whose
persisted `access_count` is 0. -/
def c1Store : StoreV2 :=
  { entries := [{ id := "e1", memory_type := .user, content := "likes tea",
                  user_id := some "u1" }] }

/-- C1, evaluated at the failing input. `MemoryManagerV2.recall()`
increments `access_count` only on the entry values it returns and never
writes them back: `search_relevant` only reads, and `recall` contains no
`store.save` call — in the embedding this is visible in `recall'`
returning only the entry list, with no store output. Hence after any
number of sequential `recall()` calls the store is the unchanged
`c1Store`, each call returns a copy claiming `access_count = 1`, and the
stored `access_count` is still 0 — not N as the claim states. (Contrast:
`MemoryStoreV2.get` does persist its access-count increment.) -/
theorem C1_recall_access_count_not_persisted :
    (MemoryManagerV2.recall' (fun _ _ => 0) 0 c1Store "" none none 10).map
      (fun e => e.access_count) = [1] ∧
    (MemoryStoreV2.lookupEntry c1Store.entries "e1").map
      (fun e => e.access_count) = some 0 ∧
    (MemoryStoreV2.lookupEntry
      ((MemoryStoreV2.get 5 c1Store.entries "e1" true).2) "e1").map
      (fun e => e.access_count) = some 1 := by
  refine ⟨by decide, by decide, by decide⟩

namespace MemoryStoreV2

theorem searchFilter_of_mem_search_relevant (sim : String → String → ℚ)
    (now : Int) (entries : List MemoryEntry) (query : String)
    (mt : Option MemoryType) (uid : Option String) (limit : Nat)
    (e : MemoryEntry) (h : e ∈ search_relevant sim now entries query mt uid limit) :
    searchFilter mt uid e = true := by
  unfold search_relevant at h
  have h1 := List.take_subset _ _ h
  rw [mem_sortDescBy] at h1
  have h2 := List.take_subset _ _ h1
  rw [mem_sortDescBy] at h2
  exact (List.mem_filter.mp h2).2

theorem approved_of_searchFilter (mt : Option MemoryType) (uid : Option String)
    (e : MemoryEntry) (h : searchFilter mt uid e = true) :
    e.approved = true ∧ e.is_archived = false ∧
    (∀ t, mt = some t → e.memory_type = t) := by
  unfold searchFilter at h
  simp only [Bool.and_eq_true, Bool.not_eq_true'] at h
  refine ⟨h.1.1.2, h.1.1.1, fun t ht => ?_⟩
  subst ht
  simpa using h.1.2

end MemoryStoreV2

/-- Every entry a `recall'` call returns is a bump of a stored entry
that passed `search_relevant`'s filter: active, approved, and of the
requested type/user. -/
theorem recall_mem_approved (sim : String → String → ℚ) (now : Int)
    (st : StoreV2) (query : String) (uid : Option String)
    (mt : Option MemoryType) (limit : Nat) (e : MemoryEntry)
    (h : e ∈ MemoryManagerV2.recall' sim now st query uid mt limit) :
    e.approved = true ∧ (∀ t, mt = some t → e.memory_type = t) := by
  unfold MemoryManagerV2.recall' at h
  obtain ⟨e0, he0, rfl⟩ := List.mem_map.mp h
  have hf := MemoryStoreV2.searchFilter_of_mem_search_relevant sim now
    st.entries query mt uid limit e0 he0
  obtain ⟨ha, _, ht⟩ := MemoryStoreV2.approved_of_searchFilter mt uid e0 hf
  exact ⟨ha, ht⟩

/-- C2. `build_context` never surfaces an unapproved LEARNED entry: the
`insights` component is exactly the contents of `insightEntries`, each
of which is approved (and LEARNED); the `user_facts` component is
exactly the contents of `userFactEntries`, each of which is approved;
the `conversation_history` component is built from the message log, not
from memory entries. Moreover `propose_learning` writes only to the
durable pending table, so the entries table — the only source of
`insights`/`user_facts` — is untouched until `approve_learning` moves
the entry across. -/
theorem C2_unapproved_learned_never_in_context (sim : String → String → ℚ)
    (now : Int) (st : StoreV2) (session_id : String)
    (user_id : Option String) (query : String) :
    ((MemoryManagerV2.build_context sim now st session_id user_id query).insights =
      (MemoryManagerV2.insightEntries sim now st query).map (fun m => m.content)) ∧
    (∀ e ∈ MemoryManagerV2.insightEntries sim now st query,
      e.approved = true ∧ e.memory_type = .learned) ∧
    ((MemoryManagerV2.build_context sim now st session_id user_id query).user_facts =
      user_id.map (fun u =>
        (MemoryManagerV2.userFactEntries sim now st query u).map (fun m => m.content))) ∧
    (∀ u, ∀ e ∈ MemoryManagerV2.userFactEntries sim now st query u,
      e.approved = true) ∧
    (∀ insight category source confidence,
      ((MemoryManagerV2.propose_learning now st insight category source
        confidence).2).entries = st.entries) := by
  refine ⟨rfl, fun e he => ?_, rfl, fun u e he => ?_, fun i c s cf => rfl⟩
  · have := recall_mem_approved sim now st query none (some .learned) 5 e he
    exact ⟨this.1, this.2 _ rfl⟩
  · exact (recall_mem_approved sim now st query (some u) (some .user) 10 e he).1

/-- Witness for C2 at a concrete input: a store holding one approved and
one unapproved LEARNED entry; the built context's insights list carries
only the approved content. -/
theorem C2_unapproved_learned_never_in_context_witness :
    (MemoryManagerV2.build_context (fun _ _ => 0) 0
      { entries := [
          { id := "a", memory_type := .learned, content := "approved insight" },
          { id := "b", memory_type := .learned, content := "pending insight",
            approved := false }] }
      "s1" none "").insights = ["approved insight"] ∧
    (∀ e ∈ MemoryManagerV2.insightEntries (fun _ _ => 0) 0
      { entries := [
          { id := "a", memory_type := .learned, content := "approved insight" },
          { id := "b", memory_type := .learned, content := "pending insight",
            approved := false }] } "", e.approved = true) := by
  constructor
  · decide
  · exact fun e he =>
      ((C2_unapproved_learned_never_in_context (fun _ _ => 0) 0
        { entries := [
            { id := "a", memory_type := .learned, content := "approved insight" },
            { id := "b", memory_type := .learned, content := "pending insight",
              approved := false }] } "s1" none "").2.1 e he).1

/-- C4. `remember_user_fact` is idempotent under near-duplicates: for
any similarity function with `sim(lower f2, lower f1) ≥ 0.75` (the
arguments exactly as `find_similar` passes them to
`SequenceMatcher.ratio`), remembering `f1` with confidence `c1` and
then `f2` with confidence `c2` for the same user on an initially empty
store leaves exactly one entry — an active USER entry of that user
whose confidence is `max c1 c2`; the second call created no duplicate.
The manager runs with its defaults (`max_user_memories = 100`,
`auto_compact = True`, no LLM). -/
theorem C4_remember_user_fact_near_duplicate_idempotent
    (sim : String → String → ℚ) (now1 now2 : Int)
    (u f1 f2 cat1 cat2 : String) (c1 c2 : ℚ)
    (hsim : 3/4 ≤ sim (lowerStr f2) (lowerStr f1)) :
    ((MemoryManagerV2.remember_user_fact sim none 100 true now2
      (MemoryManagerV2.remember_user_fact sim none 100 true now1 {} u f1 cat1 c1).2
      u f2 cat2 c2).2).entries.map
      (fun e => (e.user_id, e.memory_type, e.is_archived, e.confidence)) =
    [(some u, MemoryType.user, false, max c1 c2)] := by
  simp [MemoryManagerV2.remember_user_fact, MemoryManagerV2.maybe_compact_user_memories,
    MemoryStoreV2.find_similar, MemoryStoreV2.search_relevant, MemoryStoreV2.searchFilter,
    MemoryStoreV2.save, MemoryStoreV2.lookupEntry, MemoryEntry.relevance_score,
    sortDescBy, insDescBy, dictSet, dictGet, ge_iff_le, hsim]

/-- Witness for C4 at a concrete input: the spec's own example,
"likes coffee" then "I like coffee", at similarity 0.8 ≥ 0.75 and
confidences 0.6 and 0.9. -/
theorem C4_remember_user_fact_near_duplicate_idempotent_witness :
    (3/4 : ℚ) ≤ (fun (_ _ : String) => (4/5 : ℚ)) (lowerStr "I like coffee") (lowerStr "likes coffee") ∧
    ((MemoryManagerV2.remember_user_fact (fun _ _ => 4/5) none 100 true 200
      (MemoryManagerV2.remember_user_fact (fun _ _ => 4/5) none 100 true 100
        {} "u1" "likes coffee" "general" (3/5)).2
      "u1" "I like coffee" "general" (9/10)).2).entries.map
      (fun e => (e.user_id, e.memory_type, e.is_archived, e.confidence)) =
    [(some "u1", MemoryType.user, false, max (3/5) (9/10))] := by
  refine ⟨by norm_num, ?_⟩
  exact C4_remember_user_fact_near_duplicate_idempotent (fun _ _ => 4/5) 100 200
    "u1" "likes coffee" "I like coffee" "general" "general" (3/5) (9/10) (by norm_num)

/-- The store of the C5 failing input: the 51st `add_message` call of a
session, with the default `max_session_messages = 50`, `auto_compact`
on and no LLM summarizer (heuristic fallback). -/
def c5Store : StoreV2 :=
  (List.range 51).foldl (fun st i =>
    MemoryManagerV2.add_message none 50 true i st "s1" "user" "memo") {}

set_option maxRecDepth 100000 in
/-- C5, evaluated at the failing input. When the 51st message arrives,
the code does summarize all but the most recent 10 messages into one
SUMMARY entry (here the heuristic keyword summary of the 41 older
messages) and deletes none of them — but it never calls
`mark_messages_summarized`: every message row still has
`is_summarized = 0`, contradicting the claim that the originals are
marked summarized. As a consequence the very next `add_message`
re-summarizes the same messages into a second SUMMARY entry. -/
theorem C5_summarized_messages_never_marked :
    (c5Store.entries.filter (fun e => decide (e.memory_type = MemoryType.summary))).map
      (fun e => e.content) = ["Discussed: memo. 41 messages exchanged."] ∧
    c5Store.messages.length = 51 ∧
    c5Store.messages.all (fun r => r.is_summarized = false) = true ∧
    ((MemoryManagerV2.add_message none 50 true 51 c5Store "s1" "user"
      "memo").entries.filter
        (fun e => decide (e.memory_type = MemoryType.summary))).length = 2 := by
  refine ⟨by decide, by decide, by decide, by decide⟩

/-- The store of the C8 failing input: two near-duplicate active USER
entries of user u1. Entry "a" (confidence 0.5) is fresh and frequently
accessed, so it ranks first in `search_relevant`'s relevance order;
entry "b" (confidence 0.9) is 10 days old (well within the 30-day
archive window) and ranks second. The duplicate pair found is therefore
`(m1, m2) = ("a", "b")` with the higher-confidence entry in the second
position. -/
def c8Store : StoreV2 :=
  { entries := [
      { id := "a", memory_type := .user, content := "likes coffee",
        user_id := some "u1", confidence := 1/2, access_count := 10,
        created_at := 0, updated_at := 0 },
      { id := "b", memory_type := .user, content := "likes coffee a lot",
        user_id := some "u1", confidence := 9/10, access_count := 0,
        created_at := -864000, updated_at := -864000 }] }

set_option maxRecDepth 100000 in
/-- C8, evaluated at the failing input. `merge_memories` picks "b" (the
higher-confidence entry) as the base, so the merged row is saved under
id "b" — but `compact` then archives `m2` unconditionally (its comment
says "Archive the other one", i.e. the subsumed entry), which here is
"b" itself: the save of the archived original overwrites the merged
row. The result: the higher-confidence entry "b" ends archived with its
pre-merge content, access count 0 and no merge provenance, while the
subsumed lower-confidence entry "a" stays active and completely
untouched (confidence 0.5, access count 10, version 1) — the opposite
of the claim. -/
theorem C8_compact_archives_wrong_entry :
    ((MemoryManagerV2.compact (fun _ _ => 4/5) 0 c8Store (some "u1")).1.entries.map
      (fun e => (e.id, e.is_archived, e.confidence, e.content, e.access_count, e.version))) =
    [("a", false, 1/2, "likes coffee", 10, 1),
     ("b", true, 9/10, "likes coffee a lot", 0, 3)] := by
  have hdup : MemoryDeduplicator.find_duplicates (fun _ _ => 4/5) (3/4)
      (MemoryStoreV2.search_relevant (fun _ _ => 4/5) 0
        (MemoryStoreV2.archive_old 0 30 none c8Store.entries).1 ""
        (some .user) (some "u1") 1000) =
      [({ id := "a", memory_type := .user, content := "likes coffee",
          user_id := some "u1", confidence := 1/2, access_count := 10,
          created_at := 0, updated_at := 0 },
        { id := "b", memory_type := .user, content := "likes coffee a lot",
          user_id := some "u1", confidence := 9/10, access_count := 0,
          created_at := -864000, updated_at := -864000 }, 4/5)] := by
    norm_num [MemoryDeduplicator.find_duplicates, MemoryStoreV2.search_relevant,
      MemoryStoreV2.searchFilter, MemoryEntry.relevance_score, sortDescBy, insDescBy,
      MemoryStoreV2.archive_old, lowerStr, c8Store, List.filterMap_cons]
  have hab : ("a" : String) ≠ "b" := by decide
  simp only [MemoryManagerV2.compact]
  rw [hdup]
  norm_num [hab, MemoryStoreV2.archive_old, MemoryDeduplicator.merge_memories,
    MemoryStoreV2.save, MemoryStoreV2.lookupEntry, dictSet, dictGet,
    pyDictMerge, setList, c8Store]

/-- Witness for C3 at a concrete input: a store holding one entry old
enough to be archived by the call. -/
theorem C3_compact_never_deletes_witness :
    ((MemoryStoreV2.get 0
      (MemoryManagerV2.compact (fun _ _ => 0) (10 * 86400 * 365)
        { entries := [{ id := "old", memory_type := MemoryType.user,
                        content := "stale fact", updated_at := 0 }] }
        none).1.entries "old" true).1).isSome := by
  have h := (C3_compact_never_deletes (fun _ _ => 0) (10 * 86400 * 365)
    { entries := [{ id := "old", memory_type := MemoryType.user,
                    content := "stale fact", updated_at := 0 }] } none).2.1
  exact h "old" (by decide) 0 true

/-! ## Intents and classification results (`intents.py`, `classifiers.py`) -/

/-- `IntentCategory` enum. -/
inductive IntentCategory
  | system_command
  | system_query
  | search
  | question
  | explanation
  | code_write
  | code_debug
  | code_review
  | code_refactor
  | calendar
  | reminder
  | email
  | note
  | greeting
  | farewell
  | gratitude
  | small_talk
  | cancel
  | undo
  | repeat_last
  | help
  | settings
  | home_automation
  | ambiguous
  | unknown
  | multi_intent
deriving DecidableEq, Repr

/-- `Intent` dataclass (classification-relevant fields; patterns are
kept as their regex source strings and interpreted by the abstracted
`patMatch`). -/
structure Intent where
  category : IntentCategory
  name : String
  description : String := ""
  keywords : List String := []
  patterns : List String := []
  examples : List String := []
  handler_name : Option String := none
  requires_confirmation : Bool := false
  requires_auth : Bool := false
  priority : Int := 0
  required_slots : List String := []
  optional_slots : List String := []
deriving DecidableEq, Repr

/-- `IntentRegistry`: a name-keyed insertion-ordered dict of intents.
The Python constructor always registers the built-in defaults,
including the "unknown" and "ambiguous" intents, before any custom
registration, and `register` never removes a name. -/
structure IntentRegistry where
  intents : List Intent
deriving DecidableEq, Repr

/-- `IntentRegistry.get`: dict lookup by name. -/
def IntentRegistry.get (reg : IntentRegistry) (name : String) : Option Intent :=
  reg.intents.find? (fun i => i.name = name)

/-- `IntentRegistry.register`: dict insert — overwrites in place when
the name exists, appends otherwise. -/
def IntentRegistry.register (reg : IntentRegistry) (intent : Intent) : IntentRegistry :=
  if reg.intents.any (fun i => i.name = intent.name) then
    { intents := reg.intents.map (fun i => if i.name = intent.name then intent else i) }
  else { intents := reg.intents ++ [intent] }

/-- Stands for the Python `None` that `registry.get` returns when a name
is absent; the built-in defaults make the "unknown"/"ambiguous" lookups
always succeed, so this value is unreachable for constructor-built
registries. -/
def noneIntent : Intent := { category := .unknown, name := "" }

/-- `ClassifierType` enum. -/
inductive ClassifierType
  | rule_based
  | local_llm
  | ensemble
deriving DecidableEq, Repr

/-- `ClassificationResult` dataclass, with the dataclass defaults. -/
structure ClassificationResult where
  intent : Intent
  confidence : ℚ
  classifier_type : ClassifierType
  raw_scores : List (String × ℚ) := []
  extracted_slots : List (String × String) := []
  reasoning : Option String := none
  alternative_intents : List (Intent × ℚ) := []
  contributing_classifiers : List String := []
  agreement_score : ℚ := 1
deriving DecidableEq, Repr

/-- `ClassificationResult.needs_clarification`: confidence below 0.5 or
an AMBIGUOUS intent. -/
def ClassificationResult.needs_clarification (r : ClassificationResult) : Bool :=
  decide (r.confidence < 1/2) || decide (r.intent.category = .ambiguous)

/-! ## Rule-based classifier (`RuleBasedClassifier`) -/

namespace RuleBasedClassifier

/-- `RuleBasedClassifier._score_intent`: 10 per keyword occurrence (+5
when the text starts with it), 25 once if any pattern matches, plus the
intent's priority when anything scored. `patMatch p t` abstracts
`re.search(p, t, IGNORECASE)`. -/
def score_intent (patMatch : String → String → Bool)
    (text_lower text_original : String) (intent : Intent) : ℚ :=
  let kw_score := intent.keywords.foldl (fun acc kw =>
    if containsStr text_lower (lowerStr kw) then
      acc + 10 + (if startsWithStr text_lower (lowerStr kw) then 5 else 0)
    else acc) 0
  let pat_score : ℚ := if intent.patterns.any (fun p => patMatch p text_original) then 25 else 0
  let score := kw_score + pat_score
  if score > 0 then score + (intent.priority : ℚ) else score

/-- `RuleBasedClassifier.classify`. `extract` abstracts the fixed
regex slot-extraction table (`_extract_slots`), restricted by the code
to the winning intent's declared slots. -/
def classify (patMatch : String → String → Bool)
    (extract : String → Intent → List (String × String))
    (reg : IntentRegistry) (text : String) : ClassificationResult :=
  let text_lower := stripStr (lowerStr text)
  let scores := reg.intents.filterMap (fun intent =>
    let s := score_intent patMatch text_lower text intent
    if s > 0 then some (intent.name, s) else none)
  match sortDescBy (fun p => p.2) scores with
  | [] =>
      { intent := (reg.get "unknown").getD noneIntent,
        confidence := 0,
        classifier_type := .rule_based,
        raw_scores := [] }
  | (top_name, top_score) :: rest =>
      let top_intent := (reg.get top_name).getD noneIntent
      let conf0 := min (top_score / 100) 1
      let confidence := match rest with
        | [] => conf0
        | (_, second_score) :: _ =>
            if top_score > second_score * 2 then min (conf0 * (6/5)) 1 else conf0
      let alternatives := (rest.take 3).map (fun p =>
        ((reg.get p.1).getD noneIntent, p.2 / 100))
      { intent := top_intent,
        confidence := confidence,
        classifier_type := .rule_based,
        raw_scores := scores,
        extracted_slots := extract text top_intent,
        alternative_intents := alternatives }

end RuleBasedClassifier

/-! ## Ensemble classifier (`EnsembleClassifier`) -/

/-- `EnsembleClassifier.Strategy` enum. -/
inductive Strategy
  | weighted_vote
  | rule_first
  | llm_verify
  | consensus
deriving DecidableEq, Repr

/-- The configuration an `EnsembleClassifier` instance carries. -/
structure EnsembleClassifier where
  strategy : Strategy
  rule_confidence_threshold : ℚ
  llm_weight : ℚ
  rule_weight : ℚ
deriving DecidableEq, Repr

/-- `EnsembleClassifier.__init__`: assigns the given strategy, threshold
and weights to the instance. The constructor body contains no
validation and no failure path — it is a total function. -/
def EnsembleClassifier.init (strategy : Strategy)
    (rule_confidence_threshold llm_weight rule_weight : ℚ) : EnsembleClassifier :=
  { strategy := strategy,
    rule_confidence_threshold := rule_confidence_threshold,
    llm_weight := llm_weight,
    rule_weight := rule_weight }

namespace EnsembleClassifier

/-- Python dict merge for slot dicts: `{**rule_slots, **llm_slots}`. -/
def mergeSlots (rule_slots llm_slots : List (String × String)) :
    List (String × String) :=
  pyDictMerge rule_slots llm_slots

/-- Renders an optional reasoning string as Python string formatting
does (`None` prints as "None"). -/
def optStr : Option String → String
  | some s => s
  | none => "None"

/-- `EnsembleClassifier._rule_first` as a function of the two component
results; the returned flag records whether the provider was consulted
(in the source the LLM call only happens on the low-confidence path). -/
def rule_first (cfg : EnsembleClassifier)
    (rule_result llm_result : ClassificationResult) :
    ClassificationResult × Bool :=
  if rule_result.confidence ≥ cfg.rule_confidence_threshold then
    ({ intent := rule_result.intent,
       confidence := rule_result.confidence,
       classifier_type := .ensemble,
       raw_scores := rule_result.raw_scores,
       extracted_slots := rule_result.extracted_slots,
       contributing_classifiers := ["rule_based"],
       agreement_score := 1 }, false)
  else if llm_result.confidence < 3/10 then
    let better := if rule_result.confidence ≥ llm_result.confidence
      then rule_result else llm_result
    ({ intent := better.intent,
       confidence := better.confidence,
       classifier_type := .ensemble,
       extracted_slots := better.extracted_slots,
       reasoning := llm_result.reasoning,
       contributing_classifiers := ["rule_based", "local_llm"],
       agreement_score := if rule_result.intent = llm_result.intent then 1 else 1/2 }, true)
  else
    ({ intent := llm_result.intent,
       confidence := llm_result.confidence,
       classifier_type := .ensemble,
       extracted_slots := mergeSlots rule_result.extracted_slots llm_result.extracted_slots,
       reasoning := llm_result.reasoning,
       contributing_classifiers := ["rule_based", "local_llm"],
       agreement_score := if rule_result.intent = llm_result.intent then 1 else 1/2,
       alternative_intents :=
         if rule_result.intent = llm_result.intent then []
         else [(rule_result.intent, rule_result.confidence)] }, true)

/-- `EnsembleClassifier._weighted_vote`: both classifiers always run;
votes are confidence·weight per intent name, a zero-confidence LLM
result casts no vote, and the winner's combined confidence is its vote
divided by the weight sum. -/
def weighted_vote (reg : IntentRegistry) (cfg : EnsembleClassifier)
    (rule_result llm_result : ClassificationResult) :
    ClassificationResult × Bool :=
  let votes0 : List (String × ℚ) :=
    [(rule_result.intent.name, rule_result.confidence * cfg.rule_weight)]
  let votes :=
    if llm_result.confidence > 0 then
      dictSet votes0 llm_result.intent.name
        (dictGet votes0 llm_result.intent.name 0 +
         llm_result.confidence * cfg.llm_weight)
    else votes0
  match sortDescBy (fun p => p.2) votes with
  | [] => (⟨noneIntent, 0, .ensemble, [], [], none, [], [], 1⟩, true)
  | (winner_name, winner_score) :: rest =>
      ({ intent := (reg.get winner_name).getD noneIntent,
         confidence := winner_score / (cfg.rule_weight + cfg.llm_weight),
         classifier_type := .ensemble,
         raw_scores := votes,
         extracted_slots := mergeSlots rule_result.extracted_slots llm_result.extracted_slots,
         reasoning := llm_result.reasoning,
         contributing_classifiers := ["rule_based", "local_llm"],
         agreement_score := if rule_result.intent = llm_result.intent then 1 else 0,
         alternative_intents := (rest.take 2).map (fun p =>
           ((reg.get p.1).getD noneIntent, p.2)) }, true)

/-- `EnsembleClassifier._llm_verify`: trust rules at confidence ≥ 0.85;
otherwise consult the provider, averaging on agreement and penalising
the chosen source by 0.9 on disagreement. -/
def llm_verify (_cfg : EnsembleClassifier)
    (rule_result llm_result : ClassificationResult) :
    ClassificationResult × Bool :=
  if rule_result.confidence ≥ 85/100 then
    ({ intent := rule_result.intent,
       confidence := rule_result.confidence,
       classifier_type := .ensemble,
       raw_scores := rule_result.raw_scores,
       extracted_slots := rule_result.extracted_slots,
       contributing_classifiers := ["rule_based"],
       agreement_score := 1 }, false)
  else if rule_result.intent = llm_result.intent then
    ({ intent := rule_result.intent,
       confidence := min ((rule_result.confidence + llm_result.confidence) / (3/2)) 1,
       classifier_type := .ensemble,
       extracted_slots := mergeSlots rule_result.extracted_slots llm_result.extracted_slots,
       reasoning := some ("Verified by LLM: " ++ optStr llm_result.reasoning),
       contributing_classifiers := ["rule_based", "local_llm"],
       agreement_score := 1 }, true)
  else if llm_result.confidence > rule_result.confidence then
    ({ intent := llm_result.intent,
       confidence := llm_result.confidence * (9/10),
       classifier_type := .ensemble,
       extracted_slots := llm_result.extracted_slots,
       reasoning := some ("LLM override: " ++ optStr llm_result.reasoning),
       contributing_classifiers := ["rule_based", "local_llm"],
       agreement_score := 0,
       alternative_intents := [(rule_result.intent, rule_result.confidence)] }, true)
  else
    ({ intent := rule_result.intent,
       confidence := rule_result.confidence * (9/10),
       classifier_type := .ensemble,
       extracted_slots := rule_result.extracted_slots,
       reasoning := some ("Rules preferred (LLM suggested: " ++
         llm_result.intent.name ++ ")"),
       contributing_classifiers := ["rule_based", "local_llm"],
       agreement_score := 0,
       alternative_intents := [(llm_result.intent, llm_result.confidence)] }, true)

/-- `EnsembleClassifier._consensus`: both classifiers always run; equal
intents average the confidences, two sub-0.6 disagreeing results yield
"ambiguous" at 0.3, and otherwise the more confident source wins with a
0.8 penalty. -/
def consensus (reg : IntentRegistry) (_cfg : EnsembleClassifier)
    (rule_result llm_result : ClassificationResult) :
    ClassificationResult × Bool :=
  if rule_result.intent = llm_result.intent then
    ({ intent := rule_result.intent,
       confidence := (rule_result.confidence + llm_result.confidence) / 2,
       classifier_type := .ensemble,
       extracted_slots := mergeSlots rule_result.extracted_slots llm_result.extracted_slots,
       reasoning := some ("Consensus: " ++ optStr llm_result.reasoning),
       contributing_classifiers := ["rule_based", "local_llm"],
       agreement_score := 1 }, true)
  else if rule_result.confidence < 3/5 ∧ llm_result.confidence < 3/5 then
    ({ intent := (reg.get "ambiguous").getD noneIntent,
       confidence := 3/10,
       classifier_type := .ensemble,
       reasoning := some ("No consensus: rules say " ++ rule_result.intent.name ++
         ", LLM says " ++ llm_result.intent.name),
       contributing_classifiers := ["rule_based", "local_llm"],
       agreement_score := 0,
       alternative_intents := [(rule_result.intent, rule_result.confidence),
                               (llm_result.intent, llm_result.confidence)] }, true)
  else
    let confident := if rule_result.confidence > llm_result.confidence
      then rule_result else llm_result
    let other := if confident = rule_result then llm_result else rule_result
    ({ intent := confident.intent,
       confidence := confident.confidence * (4/5),
       classifier_type := .ensemble,
       extracted_slots := confident.extracted_slots,
       reasoning := some ("No consensus (other classifier suggested: " ++
         other.intent.name ++ ")"),
       contributing_classifiers := ["rule_based", "local_llm"],
       agreement_score := 0,
       alternative_intents := [(other.intent, other.confidence)] }, true)

/-- `EnsembleClassifier.classify`: runs the rule classifier, dispatches
on the strategy, and hands the provider's result (`llm text`) to the
strategy combinator. The returned flag records whether the provider was
actually consulted by the chosen strategy on this input. -/
def classify (patMatch : String → String → Bool)
    (extract : String → Intent → List (String × String))
    (llm : String → ClassificationResult)
    (reg : IntentRegistry) (cfg : EnsembleClassifier) (text : String) :
    ClassificationResult × Bool :=
  let rule_result := RuleBasedClassifier.classify patMatch extract reg text
  match cfg.strategy with
  | .weighted_vote => weighted_vote reg cfg rule_result (llm text)
  | .rule_first => rule_first cfg rule_result (llm text)
  | .llm_verify => llm_verify cfg rule_result (llm text)
  | .consensus => consensus reg cfg rule_result (llm text)

end EnsembleClassifier

/-! ## Router (`router.py`)

Handler, fallback, error and clarification callbacks are external async
functions; for one `route()` call, each registered callback is modelled
by the outcome of its single invocation: `Except.ok payload` for a
normal return, `Except.error msg` for a raised exception. Timing fields
(wall-clock milliseconds) and the memory side channel
(`record_interaction` after a successful handler, which does not affect
the decision) are outside the decision model. -/

/-- Lookup in a name-keyed association list (a Python dict read). -/
def dictFind? {β : Type} (d : List (String × β)) (k : String) : Option β :=
  (d.find? (fun p => p.1 = k)).map (fun p => p.2)

/-- `RoutingOutcome` enum. -/
inductive RoutingOutcome
  | handled
  | clarification_needed
  | fallback
  | error
  | no_handler
deriving DecidableEq, Repr

/-- `RoutingDecision` dataclass (timing fields omitted). -/
structure RoutingDecision where
  outcome : RoutingOutcome
  classification : ClassificationResult
  handler_name : Option String := none
  result : Option String := none
  error : Option String := none
  clarification_prompt : Option String := none
  suggested_intents : List Intent := []
deriving DecidableEq, Repr

/-- `RouteHandler`: registration metadata plus the outcome of invoking
its callback on the call under consideration. -/
structure RouteHandler where
  name : String
  run : Except String String
  intents : List String
  description : String := ""
  requires_slots : List String := []
  enabled : Bool := true
deriving Repr

/-- The state a `Router` instance carries into `_handle_classification`:
thresholds, the handler registry and intent map, and the optional
fallback/error/clarification callbacks (each as its invocation
outcome). -/
structure Router where
  confidence_threshold : ℚ
  clarification_threshold : ℚ
  handlers : List (String × RouteHandler) := []
  intent_to_handler : List (String × String) := []
  fallback_handler : Option (Except String String) := none
  error_handler : Option (Except String String) := none
  clarification_handler : Option (Except String String) := none
deriving Repr

/-- `Router.__init__`: assigns the two thresholds as given and starts
with empty registries and no optional handlers. The constructor body
contains no validation and no failure path — it is a total function. -/
def Router.init (confidence_threshold clarification_threshold : ℚ) : Router :=
  { confidence_threshold := confidence_threshold,
    clarification_threshold := clarification_threshold }

namespace Router

/-- The default clarification prompt of `_handle_clarification`. -/
def default_prompt (suggested : List Intent) : String :=
  if suggested ≠ [] then
    "I\u0027m not sure what you mean. Did you want to: " ++
      String.intercalate ", " ((suggested.take 3).map
        (fun i => "\u0027" ++ i.name ++ "\u0027")) ++ "?"
  else "Could you please clarify what you\u0027d like me to do?"

/-- `Router._handle_clarification`: suggests the top alternatives (and
the classified intent itself unless AMBIGUOUS) and emits
CLARIFICATION_NEEDED with a custom or default prompt; a failing or
empty custom prompt falls back to the default. -/
def handle_clarification (r : Router) (c : ClassificationResult) : RoutingDecision :=
  let suggested :=
    (if c.intent.category ≠ .ambiguous then [c.intent] else []) ++
    (c.alternative_intents.take 3).map (fun p => p.1)
  let custom : Option String :=
    match r.clarification_handler with
    | some (.ok p) => some p
    | _ => none
  let prompt :=
    match custom with
    | some p => if p = "" then default_prompt suggested else p
    | none => default_prompt suggested
  { outcome := .clarification_needed,
    classification := c,
    clarification_prompt := some prompt,
    suggested_intents := suggested }

/-- `Router._execute_fallback`: FALLBACK on success, ERROR when the
fallback callback raises. -/
def execute_fallback (fb : Except String String) (c : ClassificationResult) :
    RoutingDecision :=
  match fb with
  | .ok res =>
      { outcome := .fallback, classification := c,
        handler_name := some "fallback", result := some res }
  | .error e =>
      { outcome := .error, classification := c, error := some e }

/-- `Router._handle_low_confidence`: fallback when registered, else
clarification. -/
def handle_low_confidence (r : Router) (c : ClassificationResult) : RoutingDecision :=
  match r.fallback_handler with
  | some fb => execute_fallback fb c
  | none => handle_clarification r c

/-- `Router._check_required_slots`. -/
def check_required_slots (c : ClassificationResult) (h : RouteHandler) :
    List String :=
  h.requires_slots.filter (fun s => !(c.extracted_slots.any (fun p => p.1 = s)))

/-- The fixed slot-prompt table of `_handle_missing_slots`. -/
def slot_prompts : List (String × String) :=
  [("path", "What file or path should I use?"),
   ("time", "What time?"),
   ("date", "What date?"),
   ("command", "What command should I run?"),
   ("message", "What message?"),
   ("temperature", "What temperature?"),
   ("room", "Which room?")]

/-- `Router._handle_missing_slots`. -/
def handle_missing_slots (c : ClassificationResult) (missing : List String) :
    RoutingDecision :=
  { outcome := .clarification_needed,
    classification := c,
    clarification_prompt := some (String.intercalate " "
      (missing.map (fun s => dictGet slot_prompts s ("Please provide: " ++ s)))) }

/-- The `if not handler_name:` block of `_handle_classification`:
fallback when registered, else NO_HANDLER. -/
def no_usable_handler (r : Router) (c : ClassificationResult) : RoutingDecision :=
  match r.fallback_handler with
  | some fb => execute_fallback fb c
  | none => { outcome := .no_handler, classification := c }

/-- `Router._handle_classification`: the decision order of the source —
clarification check, confidence-threshold check, handler resolution,
required-slot check, execution with error handling. The source's
handler-resolution test is `if not handler_name:`, which is Python
truthiness: both a missing mapping (`dict.get` returning `None`) and a
mapping to the empty string (a handler registered under the name `""`)
are falsy and take the fallback/NO_HANDLER branch. `none` models the
uncaught `KeyError` Python raises when the intent map names a non-empty
handler that is not in the handler registry (impossible for registries
built through `register_handler`, which keeps the two in sync). -/
def handle_classification (r : Router) (c : ClassificationResult) :
    Option RoutingDecision :=
  if c.needs_clarification || decide (c.confidence < r.clarification_threshold) then
    some (handle_clarification r c)
  else if c.confidence < r.confidence_threshold then
    some (handle_low_confidence r c)
  else
    match dictFind? r.intent_to_handler c.intent.name with
    | none => some (no_usable_handler r c)
    | some handler_name =>
        if handler_name = "" then some (no_usable_handler r c)
        else
        match dictFind? r.handlers handler_name with
        | none => none
        | some route_handler =>
            let missing := check_required_slots c route_handler
            if missing ≠ [] then some (handle_missing_slots c missing)
            else
              match route_handler.run with
              | .ok res =>
                  some { outcome := .handled, classification := c,
                         handler_name := some handler_name, result := some res }
              | .error e =>
                  match r.error_handler with
                  | some (.ok er) =>
                      some { outcome := .error, classification := c,
                             handler_name := some handler_name,
                             result := some er, error := some e }
                  | _ =>
                      some { outcome := .error, classification := c,
                             handler_name := some handler_name, error := some e }

/-- `Router.register_handler`: stores the handler under its name and
points each of its intents at it (last registration wins). -/
def register_handler (r : Router) (name : String)
    (run : Except String String) (intents : List String)
    (description : String := "") (requires_slots : List String := []) : Router :=
  let h : RouteHandler := { name := name, run := run, intents := intents,
                            description := description,
                            requires_slots := requires_slots }
  { r with
    handlers :=
      if r.handlers.any (fun p => p.1 = name) then
        r.handlers.map (fun p => if p.1 = name then (name, h) else p)
      else r.handlers ++ [(name, h)],
    intent_to_handler := intents.foldl (fun acc i => dictSet acc i name)
      r.intent_to_handler }

/-- `Router.set_fallback_handler`. -/
def set_fallback_handler (r : Router) (fb : Except String String) : Router :=
  { r with fallback_handler := some fb }

/-- `Router.set_error_handler`. -/
def set_error_handler (r : Router) (eh : Except String String) : Router :=
  { r with error_handler := some eh }

end Router

/-! ## Classifier and router theorems (C6, C7, C9, C10) -/

theorem rule_first_classifier_type (cfg : EnsembleClassifier)
    (rule_result llm_result : ClassificationResult) :
    (EnsembleClassifier.rule_first cfg rule_result llm_result).1.classifier_type =
      .ensemble := by
  unfold EnsembleClassifier.rule_first
  split_ifs <;> rfl

theorem rule_classify_classifier_type (patMatch : String → String → Bool)
    (extract : String → Intent → List (String × String))
    (reg : IntentRegistry) (text : String) :
    (RuleBasedClassifier.classify patMatch extract reg text).classifier_type =
      .rule_based := by
  unfold RuleBasedClassifier.classify
  dsimp only
  split <;> rfl

/-- The `rule_first` combinator falls back to the rule result's intent
and confidence whenever the provider result has confidence 0, for any
rule result with nonnegative confidence. -/
theorem rule_first_zero_confidence_fallback
    (cfg : EnsembleClassifier) (rule_result llm_result : ClassificationResult)
    (h0 : llm_result.confidence = 0) (hr : 0 ≤ rule_result.confidence) :
    (EnsembleClassifier.rule_first cfg rule_result llm_result).1.intent =
      rule_result.intent ∧
    (EnsembleClassifier.rule_first cfg rule_result llm_result).1.confidence =
      rule_result.confidence := by
  unfold EnsembleClassifier.rule_first
  by_cases hthr : rule_result.confidence ≥ cfg.rule_confidence_threshold
  · simp [hthr]
  · have h3 : llm_result.confidence < 3/10 := by rw [h0]; norm_num
    have hge : rule_result.confidence ≥ llm_result.confidence := by rw [h0]; exact hr
    simp [hthr, h3, hge]

/-- A rule-classifier confidence is never negative: scores enter the
score dict only when positive, so the top score is positive and the
derived confidence (`min(score/100, 1)`, possibly boosted) is
nonnegative; with no scores the confidence is 0. -/
theorem rule_classify_confidence_nonneg (patMatch : String → String → Bool)
    (extract : String → Intent → List (String × String))
    (reg : IntentRegistry) (text : String) :
    0 ≤ (RuleBasedClassifier.classify patMatch extract reg text).confidence := by
  unfold RuleBasedClassifier.classify
  dsimp only
  split
  · norm_num
  · rename_i top_name top_score rest heq
    have hmem : (top_name, top_score) ∈ sortDescBy (fun p => p.2)
        (reg.intents.filterMap (fun intent =>
          let s := RuleBasedClassifier.score_intent patMatch
            (stripStr (lowerStr text)) text intent
          if s > 0 then some (intent.name, s) else none)) := by
      rw [heq]; exact List.mem_cons_self _ _
    rw [mem_sortDescBy] at hmem
    obtain ⟨intent, _, hif⟩ := List.mem_filterMap.mp hmem
    have hpos : 0 < top_score := by
      by_cases hs : RuleBasedClassifier.score_intent patMatch
          (stripStr (lowerStr text)) text intent > 0
      · simp only [hs, if_pos] at hif
        have := (Prod.mk.injEq _ _ _ _).mp (Option.some.injEq _ _ |>.mp hif)
        rw [← this.2]
        exact hs
      · simp [hs] at hif
    have h0 : (0:ℚ) ≤ min (top_score / 100) 1 := by
      apply le_min
      · positivity
      · norm_num
    split
    · exact h0
    · split
      · apply le_min
        · have : (0:ℚ) ≤ min (top_score / 100) 1 * (6/5) := by positivity
          exact this
        · norm_num
      · exact h0

/-- The registry of the C6 counterexample: one scoring intent plus the
always-registered "unknown" and "ambiguous" built-ins. -/
def c6Reg : IntentRegistry :=
  { intents := [
      { category := .question, name := "brew",
        keywords := ["aa", "bb", "cc"], priority := 15 },
      { category := .unknown, name := "unknown" },
      { category := .ambiguous, name := "ambiguous" }] }

/-- The provider of the C6 counterexample: unavailable, hence the
degraded zero-confidence "unknown" result the source produces. -/
def c6Llm : String → ClassificationResult := fun _ =>
  { intent := { category := .unknown, name := "unknown" }, confidence := 0,
    classifier_type := .local_llm,
    reasoning := some "Local LLM not available" }

/-- C6, amended. Only the `rule_first` strategy treats a zero-confidence
provider result as no opinion and falls back to the rule result: under
`rule_first`, for every registry and input text whose provider result
has confidence 0, the returned classification's intent and confidence
equal those of the rule classifier's result for that text. The other
three strategies do not fall back to the rule result exactly (see the
counterexample, where `consensus` returns "ambiguous" at 0.3 against a
rule result of "brew" at 0.5). -/
theorem C6_zero_confidence_fallback_rule_first_only
    (patMatch : String → String → Bool)
    (extract : String → Intent → List (String × String))
    (llm : String → ClassificationResult)
    (reg : IntentRegistry) (cfg : EnsembleClassifier) (text : String)
    (hstrat : cfg.strategy = .rule_first)
    (h0 : (llm text).confidence = 0) :
    (EnsembleClassifier.classify patMatch extract llm reg cfg text).1.intent =
      (RuleBasedClassifier.classify patMatch extract reg text).intent ∧
    (EnsembleClassifier.classify patMatch extract llm reg cfg text).1.confidence =
      (RuleBasedClassifier.classify patMatch extract reg text).confidence := by
  unfold EnsembleClassifier.classify
  rw [hstrat]
  exact rule_first_zero_confidence_fallback cfg _ _ h0
    (rule_classify_confidence_nonneg patMatch extract reg text)

/-- Witness for the amended C6 at a concrete input: an unavailable
provider (confidence 0) under `rule_first`; the ensemble result carries
the rule result's intent and confidence. -/
theorem C6_zero_confidence_fallback_rule_first_only_witness :
    (EnsembleClassifier.classify (fun _ _ => false) (fun _ _ => []) c6Llm c6Reg
      (EnsembleClassifier.init .rule_first (7/10) (6/10) (4/10))
      "aa bb cc dd").1.intent =
      (RuleBasedClassifier.classify (fun _ _ => false) (fun _ _ => []) c6Reg
        "aa bb cc dd").intent ∧
    (EnsembleClassifier.classify (fun _ _ => false) (fun _ _ => []) c6Llm c6Reg
      (EnsembleClassifier.init .rule_first (7/10) (6/10) (4/10))
      "aa bb cc dd").1.confidence =
      (RuleBasedClassifier.classify (fun _ _ => false) (fun _ _ => []) c6Reg
        "aa bb cc dd").confidence :=
  C6_zero_confidence_fallback_rule_first_only (fun _ _ => false) (fun _ _ => [])
    c6Llm c6Reg (EnsembleClassifier.init .rule_first (7/10) (6/10) (4/10))
    "aa bb cc dd" rfl rfl

/-- C6 counterexample: under the `consensus` strategy, an input whose
rule result is "brew" at confidence 0.5 with a zero-confidence provider
result is classified "ambiguous" at confidence 0.3 — the ensemble does
not fall back to the rule result, refuting the claim for "every
ensemble strategy". -/
theorem C6_counterexample_consensus_not_rule_result :
    (RuleBasedClassifier.classify (fun _ _ => false) (fun _ _ => []) c6Reg
      "aa bb cc dd").intent.name = "brew" ∧
    (RuleBasedClassifier.classify (fun _ _ => false) (fun _ _ => []) c6Reg
      "aa bb cc dd").confidence = 1/2 ∧
    (EnsembleClassifier.classify (fun _ _ => false) (fun _ _ => []) c6Llm c6Reg
      (EnsembleClassifier.init .consensus (7/10) (6/10) (4/10))
      "aa bb cc dd").1.intent.name = "ambiguous" ∧
    (EnsembleClassifier.classify (fun _ _ => false) (fun _ _ => []) c6Llm c6Reg
      (EnsembleClassifier.init .consensus (7/10) (6/10) (4/10))
      "aa bb cc dd").1.confidence = 3/10 := by
  have h1 : containsStr (stripStr (lowerStr "aa bb cc dd")) (lowerStr "aa") = true := by decide
  have h2 : startsWithStr (stripStr (lowerStr "aa bb cc dd")) (lowerStr "aa") = true := by decide
  have h3 : containsStr (stripStr (lowerStr "aa bb cc dd")) (lowerStr "bb") = true := by decide
  have h4 : startsWithStr (stripStr (lowerStr "aa bb cc dd")) (lowerStr "bb") = false := by decide
  have h5 : containsStr (stripStr (lowerStr "aa bb cc dd")) (lowerStr "cc") = true := by decide
  have h6 : startsWithStr (stripStr (lowerStr "aa bb cc dd")) (lowerStr "cc") = false := by decide
  have hba : ("brew" : String) ≠ "ambiguous" := by decide
  have hua : ("unknown" : String) ≠ "ambiguous" := by decide
  have hbu : ("brew" : String) ≠ "unknown" := by decide
  have hB : RuleBasedClassifier.score_intent (fun _ _ => false)
      (stripStr (lowerStr "aa bb cc dd")) "aa bb cc dd"
      { category := .question, name := "brew",
        keywords := ["aa", "bb", "cc"], priority := 15 } = 50 := by
    simp only [RuleBasedClassifier.score_intent, List.foldl_cons, List.foldl_nil,
      h1, h2, h3, h4, h5, h6, List.any_nil]
    norm_num
  have hU : RuleBasedClassifier.score_intent (fun _ _ => false)
      (stripStr (lowerStr "aa bb cc dd")) "aa bb cc dd"
      { category := .unknown, name := "unknown" } = 0 := by
    simp [RuleBasedClassifier.score_intent]
  have hA : RuleBasedClassifier.score_intent (fun _ _ => false)
      (stripStr (lowerStr "aa bb cc dd")) "aa bb cc dd"
      { category := .ambiguous, name := "ambiguous" } = 0 := by
    simp [RuleBasedClassifier.score_intent]
  refine ⟨?_, ?_, ?_, ?_⟩ <;>
    norm_num [EnsembleClassifier.classify, EnsembleClassifier.consensus,
      RuleBasedClassifier.classify, hB, hU, hA,
      c6Reg, c6Llm, EnsembleClassifier.init, IntentRegistry.get,
      sortDescBy, insDescBy, hba, hua, hbu, List.filterMap_cons]

/-- C7, amended. Under `rule_first` with a rule result at or above the
rule confidence threshold, the ensemble result carries the rule
result's intent, confidence, raw scores and extracted slots, its
contributing-classifier list is exactly `["rule_based"]`, and the
provider is never invoked — but the result is not equal to the rule
result exactly: its classifier type is ENSEMBLE (the rule result's is
RULE_BASED) and the rule result's alternatives and reasoning are not
carried over (see the counterexample). -/
theorem C7_rule_first_confident_uses_rule_result
    (patMatch : String → String → Bool)
    (extract : String → Intent → List (String × String))
    (llm : String → ClassificationResult)
    (reg : IntentRegistry) (cfg : EnsembleClassifier) (text : String)
    (hstrat : cfg.strategy = .rule_first)
    (h : cfg.rule_confidence_threshold ≤
      (RuleBasedClassifier.classify patMatch extract reg text).confidence) :
    (EnsembleClassifier.classify patMatch extract llm reg cfg text).2 = false ∧
    (EnsembleClassifier.classify patMatch extract llm reg cfg text).1 =
      { intent := (RuleBasedClassifier.classify patMatch extract reg text).intent,
        confidence := (RuleBasedClassifier.classify patMatch extract reg text).confidence,
        classifier_type := .ensemble,
        raw_scores := (RuleBasedClassifier.classify patMatch extract reg text).raw_scores,
        extracted_slots :=
          (RuleBasedClassifier.classify patMatch extract reg text).extracted_slots,
        reasoning := none,
        alternative_intents := [],
        contributing_classifiers := ["rule_based"],
        agreement_score := 1 } := by
  unfold EnsembleClassifier.classify
  rw [hstrat]
  unfold EnsembleClassifier.rule_first
  simp [ge_iff_le, h]

/-- The registry of the C7 theorems: a greeting intent whose keyword and
priority put the rule confidence at 1.0 for the input "hello". -/
def c7Reg : IntentRegistry :=
  { intents := [
      { category := .greeting, name := "greeting",
        keywords := ["hello"], priority := 85 },
      { category := .unknown, name := "unknown" },
      { category := .ambiguous, name := "ambiguous" }] }

theorem c7_rule_confidence_one :
    (RuleBasedClassifier.classify (fun _ _ => false) (fun _ _ => []) c7Reg
      "hello").confidence = 1 := by
  have h1 : containsStr (stripStr (lowerStr "hello")) (lowerStr "hello") = true := by decide
  have h2 : startsWithStr (stripStr (lowerStr "hello")) (lowerStr "hello") = true := by decide
  have hgu : ("greeting" : String) ≠ "unknown" := by decide
  have hB : RuleBasedClassifier.score_intent (fun _ _ => false)
      (stripStr (lowerStr "hello")) "hello"
      { category := .greeting, name := "greeting",
        keywords := ["hello"], priority := 85 } = 100 := by
    simp only [RuleBasedClassifier.score_intent, List.foldl_cons, List.foldl_nil,
      h1, h2, List.any_nil]
    norm_num
  have hU : RuleBasedClassifier.score_intent (fun _ _ => false)
      (stripStr (lowerStr "hello")) "hello"
      { category := .unknown, name := "unknown" } = 0 := by
    simp [RuleBasedClassifier.score_intent]
  have hA : RuleBasedClassifier.score_intent (fun _ _ => false)
      (stripStr (lowerStr "hello")) "hello"
      { category := .ambiguous, name := "ambiguous" } = 0 := by
    simp [RuleBasedClassifier.score_intent]
  norm_num [RuleBasedClassifier.classify, hB, hU, hA, c7Reg,
    IntentRegistry.get, sortDescBy, insDescBy, hgu, List.filterMap_cons]

/-- Witness for the amended C7 at a concrete input: rule confidence 1 ≥
threshold 0.7; the provider flag is false and the result carries the
rule fields. -/
theorem C7_rule_first_confident_uses_rule_result_witness :
    (EnsembleClassifier.classify (fun _ _ => false) (fun _ _ => []) c6Llm c7Reg
      (EnsembleClassifier.init .rule_first (7/10) (6/10) (4/10)) "hello").2 = false ∧
    (EnsembleClassifier.classify (fun _ _ => false) (fun _ _ => []) c6Llm c7Reg
      (EnsembleClassifier.init .rule_first (7/10) (6/10) (4/10)) "hello").1 =
      { intent := (RuleBasedClassifier.classify (fun _ _ => false) (fun _ _ => [])
          c7Reg "hello").intent,
        confidence := (RuleBasedClassifier.classify (fun _ _ => false) (fun _ _ => [])
          c7Reg "hello").confidence,
        classifier_type := .ensemble,
        raw_scores := (RuleBasedClassifier.classify (fun _ _ => false) (fun _ _ => [])
          c7Reg "hello").raw_scores,
        extracted_slots := (RuleBasedClassifier.classify (fun _ _ => false) (fun _ _ => [])
          c7Reg "hello").extracted_slots,
        reasoning := none,
        alternative_intents := [],
        contributing_classifiers := ["rule_based"],
        agreement_score := 1 } :=
  C7_rule_first_confident_uses_rule_result (fun _ _ => false) (fun _ _ => [])
    c6Llm c7Reg (EnsembleClassifier.init .rule_first (7/10) (6/10) (4/10))
    "hello" rfl (by rw [c7_rule_confidence_one]; norm_num [EnsembleClassifier.init])

/-- C7 counterexample: at an input whose rule confidence is 1 (≥ 0.7),
the ensemble's result is nevertheless not equal to the rule result
exactly — its classifier type is ENSEMBLE while the rule result's is
RULE_BASED (and the rule result's alternatives/reasoning are dropped),
so the "equals the rule result exactly" part of the claim is false. -/
theorem C7_counterexample_result_not_exactly_rule_result :
    (RuleBasedClassifier.classify (fun _ _ => false) (fun _ _ => []) c7Reg
      "hello").confidence = 1 ∧
    ((7:ℚ)/10 ≤ 1) ∧
    (EnsembleClassifier.classify (fun _ _ => false) (fun _ _ => []) c6Llm c7Reg
      (EnsembleClassifier.init .rule_first (7/10) (6/10) (4/10)) "hello").1 ≠
      RuleBasedClassifier.classify (fun _ _ => false) (fun _ _ => []) c7Reg "hello" := by
  refine ⟨c7_rule_confidence_one, by norm_num, fun heq => ?_⟩
  have hety : (EnsembleClassifier.classify (fun _ _ => false) (fun _ _ => []) c6Llm
      c7Reg (EnsembleClassifier.init .rule_first (7/10) (6/10) (4/10))
      "hello").1.classifier_type = .ensemble := by
    unfold EnsembleClassifier.classify
    exact rule_first_classifier_type _ _ _
  rw [heq, rule_classify_classifier_type] at hety
  exact absurd hety (by decide)

/-- C9 counterexample: `EnsembleClassifier.__init__` and
`Router.__init__` contain no validation — constructing with a negative
`rule_weight` or thresholds outside [0,1] succeeds, and the instance
carries the invalid values, refuting "every successfully constructed
instance has weights ≥ 0 and thresholds in [0,1]". -/
theorem C9_counterexample_negative_weight_construction_succeeds :
    (EnsembleClassifier.init .rule_first (7/10) (6/10) (-1)).rule_weight = -1 ∧
    ¬(0 ≤ (-1 : ℚ)) ∧
    (Router.init (3/2) (-1/10)).confidence_threshold = 3/2 ∧
    (Router.init (3/2) (-1/10)).clarification_threshold = -1/10 ∧
    ¬((3:ℚ)/2 ≤ 1) := by
  exact ⟨rfl, by norm_num, rfl, rfl, by norm_num⟩

/-- C9, amended. No configuration validation happens at construction
time: both constructors are total functions that store the given
strategy, weights and thresholds verbatim, whatever their values — so
instances with negative weights or out-of-range thresholds are
constructible, and nothing fails at request time either (the values are
only compared against confidences). -/
theorem C9_no_construction_validation (s : Strategy) (t lw rw ct clt : ℚ) :
    (EnsembleClassifier.init s t lw rw).strategy = s ∧
    (EnsembleClassifier.init s t lw rw).rule_confidence_threshold = t ∧
    (EnsembleClassifier.init s t lw rw).llm_weight = lw ∧
    (EnsembleClassifier.init s t lw rw).rule_weight = rw ∧
    (Router.init ct clt).confidence_threshold = ct ∧
    (Router.init ct clt).clarification_threshold = clt :=
  ⟨rfl, rfl, rfl, rfl, rfl, rfl⟩

/-- C10, amended. With the default thresholds
(`confidence_threshold = 0.5`, `clarification_threshold = 0.3`), every
classification with confidence below 0.5 makes `_handle_classification`
return CLARIFICATION_NEEDED — even when a fallback handler is
registered — because the needs-clarification check (confidence < 0.5 or
category AMBIGUOUS) runs before the confidence-threshold check, so the
low-confidence FALLBACK path is unreachable. Consequently a FALLBACK
decision can only arise from the handler-resolution test failing: the
intent-to-handler lookup is absent, or — the one extra case Python's
falsy `if not handler_name:` admits — maps the intent to the empty
handler name (see the counterexample). -/
theorem C10_low_confidence_always_clarifies (r : Router)
    (c : ClassificationResult)
    (hct : r.confidence_threshold = 1/2)
    (_hclt : r.clarification_threshold = 3/10) :
    (c.confidence < 1/2 →
      Router.handle_classification r c = some (Router.handle_clarification r c) ∧
      (Router.handle_clarification r c).outcome = .clarification_needed) ∧
    (∀ d, Router.handle_classification r c = some d → d.outcome = .fallback →
      dictFind? r.intent_to_handler c.intent.name = none ∨
      dictFind? r.intent_to_handler c.intent.name = some "") := by
  constructor
  · intro hc
    have hn : c.needs_clarification = true := by
      simp only [ClassificationResult.needs_clarification, Bool.or_eq_true,
        decide_eq_true_eq]
      exact Or.inl hc
    refine ⟨?_, rfl⟩
    unfold Router.handle_classification
    simp [hn]
  · intro d hd hout
    unfold Router.handle_classification at hd
    by_cases h1 : (c.needs_clarification ||
        decide (c.confidence < r.clarification_threshold)) = true
    · rw [if_pos h1] at hd
      injection hd with h
      subst h
      simp [Router.handle_clarification] at hout
    · rw [if_neg h1] at hd
      have hnc : c.needs_clarification = false := by
        cases hb : c.needs_clarification
        · rfl
        · rw [hb] at h1; simp at h1
      have hconf : ¬(c.confidence < 1/2) := by
        have h2 := hnc
        unfold ClassificationResult.needs_clarification at h2
        rcases Bool.or_eq_false_iff.mp h2 with ⟨ha, _⟩
        simpa using ha
      rw [if_neg (by rw [hct]; exact hconf)] at hd
      cases hlook : dictFind? r.intent_to_handler c.intent.name with
      | none => exact Or.inl rfl
      | some handler_name =>
          simp only [hlook] at hd
          by_cases hempty : handler_name = ""
          · subst hempty
            exact Or.inr rfl
          · rw [if_neg hempty] at hd
            cases hh : dictFind? r.handlers handler_name with
            | none => simp [hh] at hd
            | some route_handler =>
                simp only [hh] at hd
                by_cases hmiss : Router.check_required_slots c route_handler ≠ []
                · rw [if_pos hmiss] at hd
                  injection hd with h
                  subst h
                  simp [Router.handle_missing_slots] at hout
                · rw [if_neg hmiss] at hd
                  cases hrun : route_handler.run with
                  | ok res =>
                      simp only [hrun] at hd
                      injection hd with h
                      subst h
                      simp at hout
                  | error e =>
                      simp only [hrun] at hd
                      cases herr : r.error_handler with
                      | none =>
                          simp only [herr] at hd
                          injection hd with h
                          subst h
                          simp at hout
                      | some eh =>
                          simp only [herr] at hd
                          cases eh with
                          | ok er =>
                              injection hd with h
                              subst h
                              simp at hout
                          | error e2 =>
                              injection hd with h
                              subst h
                              simp at hout

/-- The router of the C10 counterexample: default thresholds, a
fallback handler, and a handler registered under the empty name `""`
serving intent "greet" — so the intent-to-handler mapping for "greet"
is present but maps to the falsy empty string. -/
def c10Router : Router :=
  Router.set_fallback_handler
    (Router.register_handler (Router.init (1/2) (3/10)) ""
      (.ok "handled by empty-name handler") ["greet"])
    (.ok "fallback ran")

/-- The classification of the C10 counterexample: intent "greet" at
confidence 0.9 — above both thresholds, not AMBIGUOUS. -/
def c10Class : ClassificationResult :=
  { intent := { category := .greeting, name := "greet" },
    confidence := 9/10, classifier_type := .ensemble }

/-- C10 counterexample: with a handler registered under the empty name,
a confident classification for its intent is routed to the fallback —
the decision outcome is FALLBACK although the intent-to-handler mapping
for the intent is present (it maps to `""`, which Python's
`if not handler_name:` treats as missing). So "FALLBACK can only ever
arise from a missing intent-to-handler mapping" is false as stated. -/
theorem C10_counterexample_empty_name_fallback :
    (Router.handle_classification c10Router c10Class).map
      (fun d => d.outcome) = some .fallback ∧
    dictFind? c10Router.intent_to_handler c10Class.intent.name = some "" ∧
    dictFind? c10Router.intent_to_handler c10Class.intent.name ≠ none := by
  have hga : IntentCategory.greeting ≠ IntentCategory.ambiguous := by decide
  have h : Router.handle_classification c10Router c10Class =
      some { outcome := .fallback, classification := c10Class,
             handler_name := some "fallback", result := some "fallback ran" } := by
    norm_num [Router.handle_classification, Router.no_usable_handler,
      Router.execute_fallback, ClassificationResult.needs_clarification,
      Router.handle_low_confidence, dictFind?, dictSet, c10Router, c10Class,
      Router.register_handler, Router.set_fallback_handler, Router.init, hga]
  refine ⟨?_, ?_, ?_⟩
  · rw [h]; rfl
  · norm_num [dictFind?, dictSet, c10Router, c10Class,
      Router.register_handler, Router.set_fallback_handler, Router.init]
  · norm_num [dictFind?, dictSet, c10Router, c10Class,
      Router.register_handler, Router.set_fallback_handler, Router.init]
    exact fun hco => Option.noConfusion hco

/-- Witness for C10 at a concrete input: default-threshold router with a
registered fallback handler, classification at confidence 0.4 — the
decision is CLARIFICATION_NEEDED, not FALLBACK. -/
theorem C10_low_confidence_always_clarifies_witness :
    (Router.handle_classification
      (Router.set_fallback_handler (Router.init (1/2) (3/10)) (.ok "fallback ran"))
      { intent := { category := .question, name := "brew" },
        confidence := 2/5, classifier_type := .ensemble }).map
      (fun d => d.outcome) = some .clarification_needed := by
  have h := (C10_low_confidence_always_clarifies
    (Router.set_fallback_handler (Router.init (1/2) (3/10)) (.ok "fallback ran"))
    { intent := { category := .question, name := "brew" },
      confidence := 2/5, classifier_type := .ensemble }
    rfl rfl).1 (by norm_num)
  rw [h.1]
  exact congrArg some h.2

end Sol
